import Mathlib

/-!
Verification of the release-notes pipeline in `src/changelog.js`
(Peach-Cars/Automated-release-notes).

The program fetches issue-tracker tickets, summarises them in batches via a
completion API, and formats a grouped release note.  External services
(the OpenAI completion endpoint, the Linear tracker client, `JSON.parse`,
`console` logging and `setTimeout` sleeping) are modelled as oracles /
traces; the repository's own control flow is translated directly.

Conventions of the embedding:
* `openai.chat.completions.create` is an oracle `api : Nat → ApiResult`
  mapping the index of the call made inside one `summarise` invocation to
  its outcome (a response, or a thrown error carrying a `code` field).
* a JS value stored in `error.code` is modelled as `Option String`:
  `some s` when `typeof error.code === 'string'` with value `s`, `none`
  for any non-string value (absent, number, ...).
* `JSON.parse` is an oracle `parse : String → Option JsonValue`; `none`
  models a thrown `SyntaxError`.
* sleeps (`setTimeout`) are recorded as a trace of durations in
  milliseconds, in the order they happen.
* `throw` is modelled with `Except`; `console` output is not modelled.
-/

set_option autoImplicit false

namespace Changelog

/-- `const BATCH_SIZE = 15` (src/changelog.js line 4). -/
def BATCH_SIZE : Nat := 15

/-- Minimal model of a JSON value, enough to express `Array.isArray` and
the values returned by `JSON.parse`. -/
inductive JsonValue where
  | null
  | bool (b : Bool)
  | num (n : Int)
  | str (s : String)
  | arr (elems : List JsonValue)
  | obj (fields : List (String × JsonValue))

/-- Outcome of one `openai.chat.completions.create` call:
`ok content` models a resolved promise whose
`result.choices?.[0]?.message?.content` is `content` (`none` when the
optional chain yields `undefined`); `err code` models a rejected promise
throwing an error whose `code` field is `code` (`none` when `code` is not
a string). -/
inductive ApiResult where
  | ok (content : Option String)
  | err (code : Option String)

/-- The external world one `summarise` call interacts with: the completion
API (indexed by how many `create` calls this `summarise` invocation has
already made) and `JSON.parse`. -/
structure ApiEnv where
  api : Nat → ApiResult
  parse : String → Option JsonValue

/-- `function isRateLimitError(error) { return typeof error.code === 'string'; }`
(src/changelog.js lines 18-20). -/
def isRateLimitError (code : Option String) : Bool :=
  code.isSome

/-- The retry guard of `summarise` (line 99):
`isRateLimitError(error) && (error.code === 'insufficient_quota' || error.code === 'rate_limit')`. -/
def isRecoverableCode (code : Option String) : Bool :=
  isRateLimitError code &&
    (code == some "insufficient_quota" || code == some "rate_limit")

/-- `const maxRetries = 5` (line 80). -/
def maxRetries : Nat := 5

/-- How the `while (attempt < maxRetries)` loop of `summarise` ended. -/
inductive LoopExit where
  /-- `break` after a successful `create` call; the argument is the value
  `returnedContent` holds at that point (`content || ""`). -/
  | broke (returnedContent : String)
  /-- the loop condition `attempt < maxRetries` became false. -/
  | exhausted
  /-- `throw error` on a non-recoverable error; the argument is the thrown
  error's `code` field. -/
  | threw (code : Option String)

/-- Trace of one run of the retry loop: how many `create` calls were made,
the backoff sleeps in milliseconds in order, and how the loop ended. -/
structure LoopResult where
  calls : Nat
  sleeps : List Nat
  exit : LoopExit

/-- The retry loop of `summarise` (lines 83-108).  The first argument of
the recursion is the remaining fuel `maxRetries - attempt`, the second the
current value of `attempt`; `attempt` is incremented exactly on recoverable
failures, matching the JS loop.  Each iteration makes one `create` call;
on a recoverable error it sleeps `Math.pow(2, attempt) * 1000` milliseconds
and retries, on any other error it rethrows, on success it breaks with
`returnedContent = result.choices?.[0]?.message?.content || ""`. -/
def retryLoop (api : Nat → ApiResult) : Nat → Nat → LoopResult
  | 0, _ => ⟨0, [], .exhausted⟩
  | fuel + 1, attempt =>
    match api attempt with
    | .ok content => ⟨1, [], .broke (content.getD "")⟩
    | .err code =>
      if isRecoverableCode code then
        let waitTime := 2 ^ attempt * 1000
        let rest := retryLoop api fuel (attempt + 1)
        ⟨rest.calls + 1, waitTime :: rest.sleeps, rest.exit⟩
      else
        ⟨1, [], .threw code⟩

/-- Errors that `summarise` can propagate: a rethrown completion-API error
(with its `code` field), or `new Error('Failed to get a response from
OpenAI API')` thrown when `returnedContent` is empty after the loop. -/
inductive JsError where
  | thrownApi (code : Option String)
  | noResponse

/-- Full observable behaviour of one `summarise` call. -/
structure SummariseRun where
  calls : Nat
  sleeps : List Nat
  result : Except JsError (List JsonValue)

/-- `if (!Array.isArray(parsedContent)) { parsedContent = [parsedContent]; }`
(lines 117-119). -/
def jsArrayWrap : JsonValue → List JsonValue
  | .arr elems => elems
  | v => [v]

/-- The code of `summarise` after its retry loop (lines 110-125): if
`returnedContent` is still empty the terminal
`'Failed to get a response from OpenAI API'` error is thrown (this covers
both loop exhaustion, where `returnedContent` keeps its initial `""`, and
a successful call with empty or missing content); a rethrown error
propagates; otherwise the content is parsed, a non-array value is wrapped
in a one-element array, and a parse failure is logged and yields the empty
array. -/
def afterLoop (env : ApiEnv) : LoopExit → Except JsError (List JsonValue)
  | .threw code => .error (.thrownApi code)
  | .broke returnedContent =>
    if returnedContent = "" then .error .noResponse
    else
      match env.parse returnedContent with
      | some parsedContent => .ok (jsArrayWrap parsedContent)
      | none => .ok []
  | .exhausted => .error .noResponse

/-- `async function summarise(tickets)` (lines 22-126), with the completion
API and `JSON.parse` supplied by `env`.  Runs the retry loop; a rethrown
error propagates; otherwise, if `returnedContent` is empty the terminal
`'Failed to get a response from OpenAI API'` error is thrown; otherwise the
content is parsed, a non-array value is wrapped in a one-element array, and
a parse failure is logged and yields the empty array. -/
def summarise (env : ApiEnv) : SummariseRun :=
  let r := retryLoop env.api maxRetries 0
  ⟨r.calls, r.sleeps, afterLoop env r.exit⟩

/-- `async function summariseTickets(tickets)` (lines 213-252): the batch
loop `for (let i = 0; i < totalTicketCount; i += BATCH_SIZE)`.  Tickets are
abstract (building the per-ticket record text only feeds the prompt, which
the oracle abstracts); `envs b` is the external world seen by the
`summarise` call of batch `b`.  Returns the total number of
`openai.chat.completions.create` calls made and either the concatenation of
the per-batch results in batch order, or the first uncaught error (there is
no try/catch in `summariseTickets`, so a thrown error aborts the loop). -/
def summariseTickets {α : Type} (envs : Nat → ApiEnv) (tickets : List α) :
    Nat × Except JsError (List JsonValue) :=
  match tickets with
  | [] => (0, .ok [])
  | t :: rest =>
    let run := summarise (envs 0)
    match run.result with
    | .error e => (run.calls, .error e)
    | .ok batchResult =>
      let restRun := summariseTickets (fun b => envs (b + 1)) ((t :: rest).drop BATCH_SIZE)
      (run.calls + restRun.1, restRun.2.map (fun l => batchResult ++ l))
termination_by tickets.length
decreasing_by simp [BATCH_SIZE]; omega

/-! ### Ticket fetching (src/changelog.js lines 147-211, 294-314)

`linearClient.issues({...})` is external: it is modelled as an oracle
returning either a node list (`ok nodes`) or a thrown error (`threw`). -/

/-- Outcome of one `linearClient.issues(...)` query. -/
inductive FetchOutcome (α : Type) where
  | ok (nodes : List α)
  | threw

/-- The five column-name constants (lines 6-10), in the order
`generateReleaseNote` visits them (lines 299-312). -/
def releaseColumns : List String :=
  ["Done", "Staging", "In Review", "In Progress", "To Do"]

/-- `async function getAllTicketsForProject(project, columnName)`
(lines 147-178): `tickets` starts out `[]`; a successful query with a
non-zero node count assigns the nodes, a zero count only logs, a thrown
error is caught and logged; `tickets` is returned in every case.
`issues projectId columnName` is the oracle for the query filtered to
that project and column. -/
def getAllTicketsForProject {α : Type} (issues : Nat → String → FetchOutcome α)
    (projectId : Nat) (columnName : String) : List α :=
  match issues projectId columnName with
  | .ok nodes => if nodes.length ≠ 0 then nodes else []
  | .threw => []

/-- `async function getAllUnprojectedTickets(columnName)` (lines 180-211):
same shape as `getAllTicketsForProject`, for the query filtered to tickets
with no project. -/
def getAllUnprojectedTickets {α : Type} (unprojIssues : String → FetchOutcome α)
    (columnName : String) : List α :=
  match unprojIssues columnName with
  | .ok nodes => if nodes.length ≠ 0 then nodes else []
  | .threw => []

/-- The ticket-collection phase of `generateReleaseNote` (lines 294-314):
for each active project, fetch the five columns in order and concatenate;
then fetch the five unprojected columns in order and concatenate. -/
def collectAllTickets {α : Type} (issues : Nat → String → FetchOutcome α)
    (unprojIssues : String → FetchOutcome α) (projects : List Nat) : List α :=
  (projects.foldl
    (fun acc p =>
      acc ++ (releaseColumns.map (fun c => getAllTicketsForProject issues p c)).flatten)
    [])
  ++ (releaseColumns.map (fun c => getAllUnprojectedTickets unprojIssues c)).flatten

/-! ### Formatting (src/changelog.js lines 254-292)

The JS accumulator object `groupedTickets` (a plain object literal) is
modelled as an association list of its own properties in
property-creation order, together with the two pieces of plain-object
semantics the code exercises:
* property reads fall back to `Object.prototype`: for an inherited member
  name (`"toString"`, `"constructor"`, `"__proto__"`, ...) the guard
  `!group[projectName]` is false although no own property exists, so the
  `group[projectName] = []` initialisation is skipped and
  `group[projectName].push(ticket)` throws a `TypeError` on the inherited
  non-array — `pushTicket` returns that error;
* `Object.keys` enumerates own array-index keys (canonical numeric
  strings below `2^32 - 1`) first in ascending numeric order, then the
  remaining own string keys in property-creation order — `jsObjKeys`. -/

/-- A summarized ticket as consumed by `formatReleaseNote`: the fields the
prompt asks the model to emit (lines 46-52). -/
structure SummarizedTicket where
  identifier : String
  url : String
  summary : String
  category : String
  project : String
deriving DecidableEq

/-- `groupedTickets[projectName]`: first value stored under a key, if any. -/
def jsObjGet {α : Type} (g : List (String × α)) (key : String) : Option α :=
  (g.find? (fun e => e.1 == key)).map (fun e => e.2)

/-- The `TypeError` thrown by the grouping `reduce` when
`group[projectName].push` is called on an inherited `Object.prototype`
member instead of an own array. -/
inductive JsTypeError where
  | pushOnNonArray (projectName : String)
deriving DecidableEq

/-- The own property names of `Object.prototype` that a plain `{}`
inherits (Node/V8, ECMAScript incl. Annex B `__proto__`).  For these
names `group[name]` is truthy (a function, or `Object.prototype` for
`__proto__`) even though the object has no own property. -/
def objectPrototypeKeys : List String :=
  ["constructor", "hasOwnProperty", "isPrototypeOf", "propertyIsEnumerable",
   "toLocaleString", "toString", "valueOf", "__proto__",
   "__defineGetter__", "__defineSetter__", "__lookupGetter__", "__lookupSetter__"]

/-- One step of the `reduce` of lines 255-265:
`if (!group[projectName]) group[projectName] = []; group[projectName].push(ticket)`.
An existing own key (an array, truthy even when empty) has the ticket
appended; an absent key that is an inherited `Object.prototype` member is
also truthy, so the initialisation is skipped and `.push` on the inherited
non-array throws a `TypeError`; any other absent key is created at the end
(property-creation order). -/
def pushTicket (g : List (String × List SummarizedTicket))
    (projectName : String) (t : SummarizedTicket) :
    Except JsTypeError (List (String × List SummarizedTicket)) :=
  match g with
  | [] =>
    if projectName ∈ objectPrototypeKeys then .error (.pushOnNonArray projectName)
    else .ok [(projectName, [t])]
  | (k, l) :: rest =>
    if k = projectName then .ok ((k, l ++ [t]) :: rest)
    else (pushTicket rest projectName t).map (fun rest2 => (k, l) :: rest2)

/-- The successful-path shape of `pushTicket` (no prototype key hit):
used to state the invariants of a grouping run that does not throw. -/
def pushTicketPure (g : List (String × List SummarizedTicket))
    (projectName : String) (t : SummarizedTicket) :
    List (String × List SummarizedTicket) :=
  match g with
  | [] => [(projectName, [t])]
  | (k, l) :: rest =>
    if k = projectName then (k, l ++ [t]) :: rest
    else (k, l) :: pushTicketPure rest projectName t

/-- The traversal of `tickets.reduce((group, ticket) => ..., {})`
(lines 255-265): a thrown `TypeError` aborts the reduce. -/
def groupTicketsGo (g : List (String × List SummarizedTicket)) :
    List SummarizedTicket → Except JsTypeError (List (String × List SummarizedTicket))
  | [] => .ok g
  | t :: ts =>
    match pushTicket g t.project t with
    | .error e => .error e
    | .ok g2 => groupTicketsGo g2 ts

/-- `tickets.reduce((group, ticket) => ..., {})` (lines 255-265). -/
def groupTickets (tickets : List SummarizedTicket) :
    Except JsTypeError (List (String × List SummarizedTicket)) :=
  groupTicketsGo [] tickets

/-- The grouped object of a run in which no prototype key is hit. -/
def groupTicketsPure (tickets : List SummarizedTicket) :
    List (String × List SummarizedTicket) :=
  tickets.foldl (fun group t => pushTicketPure group t.project t) []

/-- Parse a digit sequence as a decimal number (`none` on a non-digit). -/
def digitsToNatAux (acc : Nat) : List Char → Option Nat
  | [] => some acc
  | c :: cs =>
    if c.isDigit then digitsToNatAux (acc * 10 + (c.toNat - 48)) cs else none

/-- An ECMAScript array index: a key whose string is the canonical
decimal numeral of an integer below `2^32 - 1` (so `"0"`, or a digit
string with no leading zero whose value is below the bound). -/
def isArrayIndexKey (s : String) : Bool :=
  match s.data with
  | [] => false
  | c :: cs =>
    if c = '0' then cs.isEmpty
    else
      match digitsToNatAux 0 (c :: cs) with
      | some n => decide (n < 4294967295)
      | none => false

/-- The numeric value of an array-index key (`0` for non-numerals). -/
def indexKeyValue (k : String) : Nat :=
  (digitsToNatAux 0 k.data).getD 0

/-- Insertion into a list of array-index keys sorted by numeric value. -/
def insertIndexKey (k : String) : List String → List String
  | [] => [k]
  | k2 :: rest =>
    if indexKeyValue k ≤ indexKeyValue k2 then k :: k2 :: rest
    else k2 :: insertIndexKey k rest

/-- Sort array-index keys in ascending numeric order. -/
def sortIndexKeys : List String → List String
  | [] => []
  | k :: rest => insertIndexKey k (sortIndexKeys rest)

/-- `Object.keys(group)` for an ordinary object: own array-index keys in
ascending numeric order, then the remaining own string keys in
property-creation order. -/
def jsObjKeys {α : Type} (g : List (String × α)) : List String :=
  sortIndexKeys ((g.map Prod.fst).filter (fun k => isArrayIndexKey k))
    ++ (g.map Prod.fst).filter (fun k => !isArrayIndexKey k)

/-- One rendered ticket line (lines 274 and 286):
`[<category>] <summary> - [<identifier>](<url>)` plus newline. -/
def ticketLine (t : SummarizedTicket) : String :=
  "[" ++ t.category ++ "] " ++ t.summary ++ " - [" ++ t.identifier ++ "](" ++ t.url ++ ")\n"

/-- `function formatReleaseNote(tickets)` (lines 254-292): group by
`project` (the `reduce` may throw a `TypeError`, which propagates), then
for each `Object.keys` key of the grouped object emit the header
`*<project>*:`, the ticket lines, and a blank line; finally, if an
`"Enhancement"` group exists, emit it again under `*Enhancements*:`. -/
def formatReleaseNote (tickets : List SummarizedTicket) :
    Except JsTypeError String :=
  match groupTickets tickets with
  | .error e => .error e
  | .ok groupedTickets =>
    let resultString :=
      (jsObjKeys groupedTickets).foldl
        (fun acc projectName =>
          (match jsObjGet groupedTickets projectName with
            | some l =>
              l.foldl (fun a t => a ++ ticketLine t) (acc ++ "*" ++ projectName ++ "*:\n")
            | none => acc ++ "*" ++ projectName ++ "*:\n") ++ "\n")
        ""
    match jsObjGet groupedTickets "Enhancement" with
    | some l =>
      .ok (resultString ++ "*Enhancements*:\n"
        ++ l.foldl (fun a t => a ++ ticketLine t) "" ++ "\n")
    | none => .ok resultString

/-! ### Helper lemmas about the retry loop -/

/-- A completion-API outcome that the retry guard of line 99 classifies as
recoverable: a thrown error whose `code` field is the string
`'insufficient_quota'` or the string `'rate_limit'`. -/
def IsRecoverableFailure (r : ApiResult) : Prop :=
  ∃ c, r = .err (some c) ∧ (c = "insufficient_quota" ∨ c = "rate_limit")

/-- A `summarise` environment whose very first `create` call resolves with
non-empty message content. -/
def FirstAttemptOk (env : ApiEnv) : Prop :=
  ∃ s : String, s ≠ "" ∧ env.api 0 = .ok (some s)

lemma isRecoverableCode_of {c : String}
    (h : c = "insufficient_quota" ∨ c = "rate_limit") :
    isRecoverableCode (some c) = true := by
  rcases h with rfl | rfl <;> rfl

lemma isRecoverableCode_eq_false {code : Option String}
    (h1 : code ≠ some "insufficient_quota") (h2 : code ≠ some "rate_limit") :
    isRecoverableCode code = false := by
  cases code with
  | none => rfl
  | some c =>
    simp only [isRecoverableCode, isRateLimitError, Option.isSome_some,
      Bool.true_and, Bool.or_eq_false_iff, beq_eq_false_iff_ne]
    exact ⟨h1, h2⟩

lemma retryLoop_first_ok (api : Nat → ApiResult) (fuel attempt : Nat)
    (c : Option String) (hapi : api attempt = .ok c) :
    retryLoop api (fuel + 1) attempt = ⟨1, [], .broke (c.getD "")⟩ := by
  simp [retryLoop, hapi]

lemma retryLoop_first_nonrecoverable (api : Nat → ApiResult) (fuel attempt : Nat)
    (code : Option String) (hapi : api attempt = .err code)
    (hc : isRecoverableCode code = false) :
    retryLoop api (fuel + 1) attempt = ⟨1, [], .threw code⟩ := by
  simp [retryLoop, hapi, hc]

lemma retryLoop_all_recoverable (api : Nat → ApiResult) :
    ∀ fuel attempt, (∀ k, attempt ≤ k → k < attempt + fuel → IsRecoverableFailure (api k)) →
    retryLoop api fuel attempt =
      ⟨fuel, (List.range fuel).map (fun j => 2 ^ (attempt + j) * 1000), .exhausted⟩ := by
  intro fuel
  induction fuel with
  | zero => intro attempt _; simp [retryLoop]
  | succ n ih =>
    intro attempt h
    obtain ⟨c, hc, hcode⟩ := h attempt (Nat.le_refl _) (by omega)
    have hrest := ih (attempt + 1) (fun k hk1 hk2 => h k (by omega) (by omega))
    simp only [retryLoop, hc, isRecoverableCode_of hcode, if_true, hrest]
    rw [List.range_succ_eq_map]
    simp only [List.map_cons, List.map_map, Nat.add_zero]
    have hmap : List.map (fun j => 2 ^ (attempt + 1 + j) * 1000) (List.range n)
        = List.map ((fun j => 2 ^ (attempt + j) * 1000) ∘ Nat.succ) (List.range n) := by
      apply List.map_congr_left
      intro j _
      show 2 ^ (attempt + 1 + j) * 1000 = 2 ^ (attempt + (j + 1)) * 1000
      have harith : attempt + 1 + j = attempt + (j + 1) := by omega
      rw [harith]
    rw [hmap]

lemma retryLoop_calls_le (api : Nat → ApiResult) :
    ∀ fuel attempt, (retryLoop api fuel attempt).calls ≤ fuel := by
  intro fuel
  induction fuel with
  | zero => intro attempt; simp [retryLoop]
  | succ n ih =>
    intro attempt
    simp only [retryLoop]
    cases api attempt with
    | ok c => simp
    | err code =>
      by_cases h : isRecoverableCode code = true
      · simp only [h, if_true]
        have := ih (attempt + 1)
        omega
      · simp only [Bool.not_eq_true] at h
        simp [h]

lemma summarise_calls (env : ApiEnv) :
    (summarise env).calls = (retryLoop env.api maxRetries 0).calls := rfl

lemma summarise_sleeps (env : ApiEnv) :
    (summarise env).sleeps = (retryLoop env.api maxRetries 0).sleeps := rfl

lemma summarise_firstOk (env : ApiEnv) (h : FirstAttemptOk env) :
    (summarise env).calls = 1 ∧ (summarise env).sleeps = [] ∧
    ∃ l, (summarise env).result = .ok l := by
  obtain ⟨s, hs, hapi⟩ := h
  have hloop : retryLoop env.api maxRetries 0 = ⟨1, [], .broke s⟩ :=
    retryLoop_first_ok env.api 4 0 (some s) hapi
  unfold summarise
  rw [hloop]
  simp only [afterLoop, if_neg hs]
  cases env.parse s <;> simp

/-! ### Claims about `summarise` -/

/-- Claim C2: when every one of the five attempts fails with a recoverable
(rate-limit/quota) error, `summarise` sleeps exactly `2^k` seconds
(`2^k * 1000` milliseconds) after the failure of attempt `k`, for `k` in
`0..4`, makes exactly `maxRetries = 5` `create` calls (and never more than
5 in any environment), and then fails with the terminal
`'Failed to get a response from OpenAI API'` error. -/
theorem summarise_exponential_backoff (env : ApiEnv)
    (h : ∀ k, k < maxRetries → IsRecoverableFailure (env.api k)) :
    (summarise env).sleeps = (List.range maxRetries).map (fun k => 2 ^ k * 1000) ∧
    (summarise env).calls = maxRetries ∧
    (summarise env).result = .error .noResponse ∧
    ∀ env' : ApiEnv, (summarise env').calls ≤ maxRetries := by
  have hloop : retryLoop env.api maxRetries 0 =
      ⟨maxRetries, (List.range maxRetries).map (fun j => 2 ^ (0 + j) * 1000), .exhausted⟩ :=
    retryLoop_all_recoverable env.api maxRetries 0 (fun k _ hk => h k (by omega))
  refine ⟨?_, ?_, ?_, ?_⟩
  · rw [summarise_sleeps, hloop]
    simp
  · rw [summarise_calls, hloop]
  · show afterLoop env (retryLoop env.api maxRetries 0).exit = .error .noResponse
    rw [hloop]
    rfl
  · intro env'
    rw [summarise_calls]
    exact retryLoop_calls_le env'.api maxRetries 0

/-- Witness for C2: the environment whose every call is rejected with
`code === 'rate_limit'`. -/
theorem summarise_exponential_backoff_witness :
    (∀ k, k < maxRetries →
      IsRecoverableFailure ((⟨fun _ => .err (some "rate_limit"), fun _ => none⟩ : ApiEnv).api k)) ∧
    ((summarise ⟨fun _ => .err (some "rate_limit"), fun _ => none⟩).sleeps =
        (List.range maxRetries).map (fun k => 2 ^ k * 1000) ∧
      (summarise ⟨fun _ => .err (some "rate_limit"), fun _ => none⟩).calls = maxRetries ∧
      (summarise ⟨fun _ => .err (some "rate_limit"), fun _ => none⟩).result = .error .noResponse ∧
      ∀ env' : ApiEnv, (summarise env').calls ≤ maxRetries) :=
  ⟨fun _ _ => ⟨"rate_limit", rfl, Or.inr rfl⟩,
    summarise_exponential_backoff _ (fun _ _ => ⟨"rate_limit", rfl, Or.inr rfl⟩)⟩

/-! ### Helper lemmas about `summariseTickets` -/

lemma summariseTickets_nil {α : Type} (envs : Nat → ApiEnv) :
    summariseTickets envs ([] : List α) = (0, .ok []) := by
  rw [summariseTickets]

lemma summariseTickets_cons_error {α : Type} (envs : Nat → ApiEnv)
    (t : α) (rest : List α) (e : JsError)
    (h : (summarise (envs 0)).result = .error e) :
    summariseTickets envs (t :: rest) = ((summarise (envs 0)).calls, .error e) := by
  rw [summariseTickets, h]

lemma summariseTickets_cons_ok {α : Type} (envs : Nat → ApiEnv)
    (t : α) (rest : List α) (l : List JsonValue)
    (h : (summarise (envs 0)).result = .ok l) :
    summariseTickets envs (t :: rest) =
      ((summarise (envs 0)).calls
          + (summariseTickets (fun b => envs (b + 1)) ((t :: rest).drop BATCH_SIZE)).1,
        (summariseTickets (fun b => envs (b + 1)) ((t :: rest).drop BATCH_SIZE)).2.map
          (fun l2 => l ++ l2)) := by
  rw [summariseTickets, h]

/-! ### Claims C3, C10, C5, C4, C1 -/

/-- Claim C3: a completion-API error whose `code` is neither the string
`'insufficient_quota'` nor the string `'rate_limit'` is rethrown on the
first attempt: one `create` call, no backoff sleep, `summarise` propagates
the error, and `summariseTickets` on a non-empty ticket list aborts with
that same error. -/
theorem summarise_nonrecoverable_rethrow {α : Type} (envs : Nat → ApiEnv)
    (code : Option String)
    (h1 : code ≠ some "insufficient_quota") (h2 : code ≠ some "rate_limit")
    (hapi : (envs 0).api 0 = .err code) (t0 : α) (ts : List α) :
    (summarise (envs 0)).calls = 1 ∧
    (summarise (envs 0)).sleeps = [] ∧
    (summarise (envs 0)).result = .error (.thrownApi code) ∧
    summariseTickets envs (t0 :: ts) = (1, .error (.thrownApi code)) := by
  have hloop : retryLoop (envs 0).api maxRetries 0 = ⟨1, [], .threw code⟩ :=
    retryLoop_first_nonrecoverable (envs 0).api 4 0 code hapi
      (isRecoverableCode_eq_false h1 h2)
  have hcalls : (summarise (envs 0)).calls = 1 := by rw [summarise_calls, hloop]
  have hres : (summarise (envs 0)).result = .error (.thrownApi code) := by
    show afterLoop (envs 0) (retryLoop (envs 0).api maxRetries 0).exit = _
    rw [hloop]
    rfl
  refine ⟨hcalls, ?_, hres, ?_⟩
  · rw [summarise_sleeps, hloop]
  · rw [summariseTickets_cons_error envs t0 ts _ hres, hcalls]

/-- Witness for C3: a first call rejected with a non-string `code`
(modelled by `none`) on a one-ticket list. -/
theorem summarise_nonrecoverable_rethrow_witness :
    ((none : Option String) ≠ some "insufficient_quota") ∧
    ((none : Option String) ≠ some "rate_limit") ∧
    ((⟨fun _ => .err none, fun _ => none⟩ : ApiEnv).api 0 = .err none) ∧
    ((summarise ⟨fun _ => .err none, fun _ => none⟩).calls = 1 ∧
      (summarise ⟨fun _ => .err none, fun _ => none⟩).sleeps = [] ∧
      (summarise ⟨fun _ => .err none, fun _ => none⟩).result = .error (.thrownApi none) ∧
      summariseTickets (fun _ => ⟨fun _ => .err none, fun _ => none⟩) [(0 : Nat)]
        = (1, .error (.thrownApi none))) :=
  ⟨Option.noConfusion, Option.noConfusion, rfl,
    summarise_nonrecoverable_rethrow (fun _ => ⟨fun _ => .err none, fun _ => none⟩)
      none Option.noConfusion Option.noConfusion rfl 0 []⟩

/-- Claim C10: a successful `create` call whose
`result.choices?.[0]?.message?.content` is missing or the empty string
leaves the retry loop by `break` after one call and no sleep, and
`summarise` then throws the terminal
`'Failed to get a response from OpenAI API'` error: the terminal error is
reachable on a successful first attempt. -/
theorem summarise_empty_content (env : ApiEnv) (c : Option String)
    (hapi : env.api 0 = .ok c) (hc : c.getD "" = "") :
    (summarise env).calls = 1 ∧
    (summarise env).sleeps = [] ∧
    (summarise env).result = .error .noResponse := by
  have hloop : retryLoop env.api maxRetries 0 = ⟨1, [], .broke (c.getD "")⟩ :=
    retryLoop_first_ok env.api 4 0 c hapi
  refine ⟨?_, ?_, ?_⟩
  · rw [summarise_calls, hloop]
  · rw [summarise_sleeps, hloop]
  · show afterLoop env (retryLoop env.api maxRetries 0).exit = _
    rw [hloop, hc]
    rfl

/-- Witness for C10: a resolved response with absent content. -/
theorem summarise_empty_content_witness :
    ((⟨fun _ => .ok none, fun _ => none⟩ : ApiEnv).api 0 = .ok none) ∧
    ((none : Option String).getD "" = "") ∧
    ((summarise ⟨fun _ => .ok none, fun _ => none⟩).calls = 1 ∧
      (summarise ⟨fun _ => .ok none, fun _ => none⟩).sleeps = [] ∧
      (summarise ⟨fun _ => .ok none, fun _ => none⟩).result = .error .noResponse) :=
  ⟨rfl, rfl, summarise_empty_content _ none rfl rfl⟩

/-- Claim C5: when the response text parses to a JSON value that is not an
array, `summarise` returns the one-element sequence holding that value,
which is exactly the result obtained for a response parsing to the same
value enclosed in a one-element array. -/
theorem summarise_nonarray_wrap (env1 env2 : ApiEnv) (t1 t2 : String)
    (v : JsonValue)
    (h1 : env1.api 0 = .ok (some t1)) (ht1 : t1 ≠ "")
    (hp1 : env1.parse t1 = some v) (hv : ∀ xs, v ≠ .arr xs)
    (h2 : env2.api 0 = .ok (some t2)) (ht2 : t2 ≠ "")
    (hp2 : env2.parse t2 = some (.arr [v])) :
    (summarise env1).result = .ok [v] ∧
    (summarise env1).result = (summarise env2).result := by
  have hw : jsArrayWrap v = [v] := by
    cases v with
    | arr elems => exact absurd rfl (hv elems)
    | null => rfl
    | bool b => rfl
    | num n => rfl
    | str s => rfl
    | obj fields => rfl
  have hloop1 : retryLoop env1.api maxRetries 0 = ⟨1, [], .broke t1⟩ :=
    retryLoop_first_ok env1.api 4 0 (some t1) h1
  have hloop2 : retryLoop env2.api maxRetries 0 = ⟨1, [], .broke t2⟩ :=
    retryLoop_first_ok env2.api 4 0 (some t2) h2
  have hr1 : (summarise env1).result = .ok [v] := by
    show afterLoop env1 (retryLoop env1.api maxRetries 0).exit = _
    rw [hloop1]
    simp [afterLoop, ht1, hp1, hw]
  have hr2 : (summarise env2).result = .ok [v] := by
    show afterLoop env2 (retryLoop env2.api maxRetries 0).exit = _
    rw [hloop2]
    simp [afterLoop, ht2, hp2, jsArrayWrap]
  exact ⟨hr1, hr1.trans hr2.symm⟩

/-- Witness for C5: a response parsing to the empty JSON object versus one
parsing to the singleton array holding that object. -/
theorem summarise_nonarray_wrap_witness :
    ((⟨fun _ => .ok (some "o"), fun _ => some (.obj [])⟩ : ApiEnv).api 0 = .ok (some "o")) ∧
    ("o" ≠ "") ∧
    ((⟨fun _ => .ok (some "o"), fun _ => some (.obj [])⟩ : ApiEnv).parse "o" = some (.obj [])) ∧
    (∀ xs, JsonValue.obj [] ≠ .arr xs) ∧
    ((⟨fun _ => .ok (some "a"), fun _ => some (.arr [.obj []])⟩ : ApiEnv).api 0 = .ok (some "a")) ∧
    ("a" ≠ "") ∧
    ((⟨fun _ => .ok (some "a"), fun _ => some (.arr [.obj []])⟩ : ApiEnv).parse "a"
      = some (.arr [.obj []])) ∧
    ((summarise ⟨fun _ => .ok (some "o"), fun _ => some (.obj [])⟩).result = .ok [.obj []] ∧
      (summarise ⟨fun _ => .ok (some "o"), fun _ => some (.obj [])⟩).result
        = (summarise ⟨fun _ => .ok (some "a"), fun _ => some (.arr [.obj []])⟩).result) :=
  ⟨rfl, by decide, rfl, fun xs h => JsonValue.noConfusion h,
    rfl, by decide, rfl,
    summarise_nonarray_wrap _ _ "o" "a" (.obj []) rfl (by decide) rfl
      (fun xs h => JsonValue.noConfusion h) rfl (by decide) rfl⟩

/-- Claim C4: a successful response whose non-empty text does not parse as
JSON makes `summarise` log the parse error and return the empty sequence
instead of throwing, and the batch loop goes on: the run's output is
exactly what the remaining batches produce. -/
theorem summarise_parse_failure {α : Type} (envs : Nat → ApiEnv) (text : String)
    (hapi : (envs 0).api 0 = .ok (some text)) (htext : text ≠ "")
    (hparse : (envs 0).parse text = none) (ts : List α) :
    (summarise (envs 0)).result = .ok [] ∧
    (summariseTickets envs ts).2
      = (summariseTickets (fun b => envs (b + 1)) (ts.drop BATCH_SIZE)).2 := by
  have hloop : retryLoop (envs 0).api maxRetries 0 = ⟨1, [], .broke text⟩ :=
    retryLoop_first_ok (envs 0).api 4 0 (some text) hapi
  have hres : (summarise (envs 0)).result = .ok [] := by
    show afterLoop (envs 0) (retryLoop (envs 0).api maxRetries 0).exit = _
    rw [hloop]
    simp [afterLoop, htext, hparse]
  refine ⟨hres, ?_⟩
  cases ts with
  | nil => rw [List.drop_nil, summariseTickets_nil, summariseTickets_nil]
  | cons t rest =>
    rw [summariseTickets_cons_ok envs t rest [] hres]
    cases (summariseTickets (fun b => envs (b + 1)) ((t :: rest).drop BATCH_SIZE)).2 with
    | error e => simp [Except.map]
    | ok l => simp [Except.map]

/-- Witness for C4: a one-ticket list whose only batch answers the
unparsable text `"not json"`. -/
theorem summarise_parse_failure_witness :
    ((⟨fun _ => .ok (some "not json"), fun _ => none⟩ : ApiEnv).api 0 = .ok (some "not json")) ∧
    ("not json" ≠ "") ∧
    ((⟨fun _ => .ok (some "not json"), fun _ => none⟩ : ApiEnv).parse "not json" = none) ∧
    ((summarise ⟨fun _ => .ok (some "not json"), fun _ => none⟩).result = .ok [] ∧
      (summariseTickets (fun _ => ⟨fun _ => .ok (some "not json"), fun _ => none⟩) [(0 : Nat)]).2
        = (summariseTickets (fun _ => ⟨fun _ => .ok (some "not json"), fun _ => none⟩)
            ([(0 : Nat)].drop BATCH_SIZE)).2) :=
  ⟨rfl, by decide, rfl,
    summarise_parse_failure (fun _ => ⟨fun _ => .ok (some "not json"), fun _ => none⟩)
      "not json" rfl (by decide) rfl [(0 : Nat)]⟩

lemma summariseTickets_calls_of_firstOk {α : Type} :
    ∀ n (ts : List α), ts.length = n → ∀ envs : Nat → ApiEnv,
    (∀ b, FirstAttemptOk (envs b)) →
    (summariseTickets envs ts).1 = (ts.length + (BATCH_SIZE - 1)) / BATCH_SIZE := by
  intro n
  induction n using Nat.strong_induction_on with
  | _ n ih =>
    intro ts hlen envs henvs
    cases ts with
    | nil => rw [summariseTickets_nil]; simp [BATCH_SIZE]
    | cons t rest =>
      obtain ⟨hcalls, hsleeps, l, hres⟩ := summarise_firstOk (envs 0) (henvs 0)
      rw [summariseTickets_cons_ok envs t rest l hres]
      show (summarise (envs 0)).calls
          + (summariseTickets (fun b => envs (b + 1)) ((t :: rest).drop BATCH_SIZE)).1 = _
      simp only [List.length_cons] at hlen
      have hlt : ((t :: rest).drop BATCH_SIZE).length < n := by
        simp only [List.length_drop, List.length_cons, BATCH_SIZE]
        omega
      have hrest := ih ((t :: rest).drop BATCH_SIZE).length hlt
        ((t :: rest).drop BATCH_SIZE) rfl (fun b => envs (b + 1))
        (fun b => henvs (b + 1))
      rw [hcalls, hrest]
      simp only [List.length_drop, List.length_cons, BATCH_SIZE]
      omega

/-- Claim C1: when every batch's first `create` call succeeds with
non-empty content, the batch loop of `summariseTickets` makes exactly
`⌈n / BATCH_SIZE⌉` completion-API calls for `n` input tickets — one call
per batch — and an empty ticket list makes zero calls. -/
theorem summariseTickets_api_call_count {α : Type} (envs : Nat → ApiEnv)
    (h : ∀ b, FirstAttemptOk (envs b)) (tickets : List α) :
    (summariseTickets envs tickets).1
      = (tickets.length + (BATCH_SIZE - 1)) / BATCH_SIZE ∧
    (summariseTickets envs ([] : List α)).1 = 0 := by
  refine ⟨summariseTickets_calls_of_firstOk tickets.length tickets rfl envs h, ?_⟩
  rw [summariseTickets_nil]

/-- Witness for C1: 31 tickets in batches of 15 make `⌈31/15⌉ = 3` calls. -/
theorem summariseTickets_api_call_count_witness :
    (∀ b, FirstAttemptOk ((fun _ : Nat => (⟨fun _ => .ok (some "x"), fun _ => none⟩ : ApiEnv)) b)) ∧
    ((summariseTickets (fun _ : Nat => (⟨fun _ => .ok (some "x"), fun _ => none⟩ : ApiEnv))
        (List.range 31)).1
      = ((List.range 31).length + (BATCH_SIZE - 1)) / BATCH_SIZE ∧
      (summariseTickets (fun _ : Nat => (⟨fun _ => .ok (some "x"), fun _ => none⟩ : ApiEnv))
        ([] : List Nat)).1 = 0) :=
  ⟨fun _ => ⟨"x", by decide, rfl⟩,
    summariseTickets_api_call_count _ (fun _ => ⟨"x", by decide, rfl⟩) (List.range 31)⟩

/-! ### Claim C6: fetch failures are recovered locally -/

lemma collectAllTickets_congr {α : Type}
    (issues1 issues2 : Nat → String → FetchOutcome α)
    (unprojIssues : String → FetchOutcome α) (projects : List Nat)
    (h : ∀ q d, getAllTicketsForProject issues1 q d = getAllTicketsForProject issues2 q d) :
    collectAllTickets issues1 unprojIssues projects
      = collectAllTickets issues2 unprojIssues projects := by
  unfold collectAllTickets
  have hfun : (fun (acc : List α) p =>
        acc ++ (releaseColumns.map (fun c => getAllTicketsForProject issues1 p c)).flatten)
      = (fun acc p =>
        acc ++ (releaseColumns.map (fun c => getAllTicketsForProject issues2 p c)).flatten) := by
    funext acc p
    congr 1
    congr 1
    apply List.map_congr_left
    intro c _
    exact h p c
  rw [hfun]

/-- Claim C6: a tracker query that throws is caught inside the fetch
function, which returns the empty list instead of propagating, for both
the per-project and the unprojected variant; consequently the
ticket-collection phase of `generateReleaseNote` behaves exactly as if
that project/column fetch had returned zero tickets — the run is not
aborted. -/
theorem fetch_failure_recovered {α : Type} (issues : Nat → String → FetchOutcome α)
    (unprojIssues : String → FetchOutcome α) (p : Nat) (c c2 : String)
    (hp : issues p c = .threw) (hu : unprojIssues c2 = .threw) (projects : List Nat) :
    getAllTicketsForProject issues p c = [] ∧
    getAllUnprojectedTickets unprojIssues c2 = [] ∧
    collectAllTickets issues unprojIssues projects
      = collectAllTickets
          (fun q d => if q = p ∧ d = c then .ok [] else issues q d)
          unprojIssues projects := by
  refine ⟨?_, ?_, ?_⟩
  · unfold getAllTicketsForProject
    rw [hp]
  · unfold getAllUnprojectedTickets
    rw [hu]
  · apply collectAllTickets_congr
    intro q d
    by_cases hqd : q = p ∧ d = c
    · obtain ⟨rfl, rfl⟩ := hqd
      unfold getAllTicketsForProject
      rw [hp]
      simp
    · unfold getAllTicketsForProject
      simp only [if_neg hqd]

/-- Witness for C6: every query throws; one project, columns `"Done"`. -/
theorem fetch_failure_recovered_witness :
    ((fun (_ : Nat) (_ : String) => (FetchOutcome.threw : FetchOutcome Nat)) 0 "Done"
      = .threw) ∧
    ((fun (_ : String) => (FetchOutcome.threw : FetchOutcome Nat)) "Done" = .threw) ∧
    (getAllTicketsForProject (fun _ _ => (FetchOutcome.threw : FetchOutcome Nat)) 0 "Done" = [] ∧
      getAllUnprojectedTickets (fun _ => (FetchOutcome.threw : FetchOutcome Nat)) "Done" = [] ∧
      collectAllTickets (fun _ _ => (FetchOutcome.threw : FetchOutcome Nat))
          (fun _ => FetchOutcome.threw) [0]
        = collectAllTickets
            (fun q d => if q = 0 ∧ d = "Done" then .ok [] else FetchOutcome.threw)
            (fun _ => FetchOutcome.threw) [0]) :=
  ⟨rfl, rfl,
    fetch_failure_recovered (fun _ _ => FetchOutcome.threw) (fun _ => FetchOutcome.threw)
      0 "Done" "Done" rfl rfl [0]⟩

/-! ### Rendering structure of `formatReleaseNote`

Spec-side definitions (named after §4.4 of the spec) describing the
rendered shape, to be compared with the `formatReleaseNote` translation. -/

/-- The ticket lines of one group, one rendered line per ticket in group
order. -/
def ticketLines (l : List SummarizedTicket) : String :=
  String.join (l.map ticketLine)

/-- One rendered group: the header line `*<project>*:`, the ticket lines,
and a trailing blank line. -/
def renderGroup (projectName : String) (l : List SummarizedTicket) : String :=
  "*" ++ projectName ++ "*:\n" ++ ticketLines l ++ "\n"

/-- The trailing duplicated `*Enhancements*:` section (lines 283-289),
present exactly when an `"Enhancement"` group exists. -/
def enhancementsBlock (g : List (String × List SummarizedTicket)) : String :=
  match jsObjGet g "Enhancement" with
  | some l => "*Enhancements*:\n" ++ ticketLines l ++ "\n"
  | none => ""

/-- The distinct project names of the input in first-seen order. -/
def firstSeenProjects (ts : List SummarizedTicket) : List String :=
  ts.foldl (fun acc t => if t.project ∈ acc then acc else acc ++ [t.project]) []

/-! ### String folding lemmas -/

lemma string_foldl_append (l : List String) :
    ∀ acc : String, l.foldl (· ++ ·) acc = acc ++ l.foldl (· ++ ·) "" := by
  induction l with
  | nil => intro acc; exact (String.append_empty acc).symm
  | cons a l ih =>
    intro acc
    simp only [List.foldl_cons]
    rw [ih (acc ++ a), ih ("" ++ a), String.empty_append, String.append_assoc]

lemma string_join_cons (a : String) (l : List String) :
    String.join (a :: l) = a ++ String.join l := by
  simp only [String.join, List.foldl_cons]
  rw [string_foldl_append l ("" ++ a), String.empty_append]

lemma string_join_append (l1 l2 : List String) :
    String.join (l1 ++ l2) = String.join l1 ++ String.join l2 := by
  induction l1 with
  | nil =>
    show String.join l2 = String.join [] ++ String.join l2
    rw [show String.join [] = "" from rfl, String.empty_append]
  | cons a l1 ih =>
    rw [List.cons_append, string_join_cons, string_join_cons, ih,
      String.append_assoc]

lemma string_foldl_append_f {α : Type} (f : α → String) (l : List α) :
    ∀ acc : String, l.foldl (fun a t => a ++ f t) acc = acc ++ String.join (l.map f) := by
  induction l with
  | nil => intro acc; exact (String.append_empty acc).symm
  | cons t l ih =>
    intro acc
    simp only [List.foldl_cons, List.map_cons]
    rw [ih (acc ++ f t), string_join_cons, String.append_assoc]

/-! ### Lookup and grouping lemmas -/

lemma jsObjGet_nil {α : Type} (k : String) :
    jsObjGet ([] : List (String × α)) k = none := rfl

lemma jsObjGet_cons_self {α : Type} (k : String) (v : α) (rest : List (String × α)) :
    jsObjGet ((k, v) :: rest) k = some v := by
  simp [jsObjGet, List.find?_cons]

lemma jsObjGet_cons_ne {α : Type} (k k' : String) (v : α) (rest : List (String × α))
    (h : k ≠ k') : jsObjGet ((k, v) :: rest) k' = jsObjGet rest k' := by
  simp [jsObjGet, List.find?_cons, h]

lemma jsObjGet_isSome_iff {α : Type} (g : List (String × α)) (k : String) :
    (jsObjGet g k).isSome = true ↔ k ∈ g.map Prod.fst := by
  induction g with
  | nil => simp [jsObjGet_nil]
  | cons e rest ih =>
    obtain ⟨k0, v⟩ := e
    by_cases h : k0 = k
    · subst h
      simp [jsObjGet_cons_self]
    · rw [jsObjGet_cons_ne k0 k v rest h]
      simp only [List.map_cons, List.mem_cons, ih]
      constructor
      · exact Or.inr
      · rintro (rfl | hmem)
        · exact absurd rfl h
        · exact hmem

lemma jsObjGet_mem {α : Type} (g : List (String × α)) (k : String) (v : α)
    (h : jsObjGet g k = some v) : (k, v) ∈ g := by
  induction g with
  | nil => simp [jsObjGet_nil] at h
  | cons e rest ih =>
    obtain ⟨k0, v0⟩ := e
    by_cases hk : k0 = k
    · subst hk
      rw [jsObjGet_cons_self] at h
      obtain rfl : v0 = v := Option.some.inj h
      exact List.mem_cons_self _ _
    · rw [jsObjGet_cons_ne k0 k v0 rest hk] at h
      exact List.mem_cons_of_mem _ (ih h)

lemma jsObjGet_pushTicketPure (g : List (String × List SummarizedTicket))
    (p q : String) (t : SummarizedTicket) :
    jsObjGet (pushTicketPure g p t) q =
      if q = p then some ((jsObjGet g p).getD [] ++ [t]) else jsObjGet g q := by
  induction g with
  | nil =>
    by_cases h : q = p
    · subst h
      simp [pushTicketPure, jsObjGet_cons_self, jsObjGet_nil]
    · simp [pushTicketPure, jsObjGet_cons_ne p q [t] [] (fun hpq => h hpq.symm),
        jsObjGet_nil, h]
  | cons e rest ih =>
    obtain ⟨k, l⟩ := e
    by_cases hk : k = p
    · subst hk
      simp only [pushTicketPure, eq_self_iff_true, if_true]
      by_cases hq : q = k
      · subst hq
        simp [jsObjGet_cons_self]
      · rw [jsObjGet_cons_ne k q (l ++ [t]) rest (fun h => hq h.symm),
          if_neg (fun h => hq h), jsObjGet_cons_ne k q l rest (fun h => hq h.symm)]
    · simp only [pushTicketPure, if_neg hk]
      by_cases hq : q = k
      · subst hq
        rw [jsObjGet_cons_self, jsObjGet_cons_self,
          if_neg (fun h : q = p => hk (h.symm.trans rfl).symm)]
      · rw [jsObjGet_cons_ne k q l (pushTicketPure rest p t) (fun h => hq h.symm), ih,
          jsObjGet_cons_ne k q l rest (fun h => hq h.symm)]
        by_cases hp : q = p
        · subst hp
          rw [if_pos rfl, if_pos rfl,
            jsObjGet_cons_ne k q l rest (fun h => hq h.symm)]
        · rw [if_neg hp, if_neg hp]

lemma keys_pushTicketPure (g : List (String × List SummarizedTicket))
    (p : String) (t : SummarizedTicket) :
    (pushTicketPure g p t).map Prod.fst =
      if p ∈ g.map Prod.fst then g.map Prod.fst else g.map Prod.fst ++ [p] := by
  induction g with
  | nil => simp [pushTicketPure]
  | cons e rest ih =>
    obtain ⟨k, l⟩ := e
    by_cases hk : k = p
    · subst hk
      simp [pushTicketPure]
    · simp only [pushTicketPure, if_neg hk, List.map_cons, ih]
      by_cases hp : p ∈ rest.map Prod.fst
      · rw [if_pos hp, if_pos (List.mem_cons_of_mem _ hp)]
      · rw [if_neg hp, if_neg ?_, List.cons_append]
        intro hmem
        rcases List.mem_cons.mp hmem with h | h
        · exact hk h.symm
        · exact hp h

lemma pushTicket_ok_of_not_proto (g : List (String × List SummarizedTicket))
    (p : String) (t : SummarizedTicket) (hp : p ∉ objectPrototypeKeys) :
    pushTicket g p t = .ok (pushTicketPure g p t) := by
  induction g with
  | nil => simp [pushTicket, pushTicketPure, hp]
  | cons e rest ih =>
    obtain ⟨k, l⟩ := e
    by_cases hk : k = p
    · simp [pushTicket, pushTicketPure, hk]
    · simp [pushTicket, pushTicketPure, hk, ih, Except.map]

lemma groupTicketsGo_ok_of_not_proto :
    ∀ (ts : List SummarizedTicket) (g : List (String × List SummarizedTicket)),
    (∀ t ∈ ts, t.project ∉ objectPrototypeKeys) →
    groupTicketsGo g ts
      = .ok (ts.foldl (fun group t => pushTicketPure group t.project t) g) := by
  intro ts
  induction ts with
  | nil => intro g _; rfl
  | cons t ts ih =>
    intro g h
    have hhead : t.project ∉ objectPrototypeKeys := h t (List.mem_cons_self _ _)
    simp only [groupTicketsGo, pushTicket_ok_of_not_proto g t.project t hhead,
      List.foldl_cons]
    exact ih (pushTicketPure g t.project t) (fun u hu => h u (List.mem_cons_of_mem _ hu))

lemma groupTickets_ok_of_not_proto (ts : List SummarizedTicket)
    (h : ∀ t ∈ ts, t.project ∉ objectPrototypeKeys) :
    groupTickets ts = .ok (groupTicketsPure ts) :=
  groupTicketsGo_ok_of_not_proto ts [] h

lemma groupTicketsPure_get_aux :
    ∀ (ts : List SummarizedTicket) (g : List (String × List SummarizedTicket)) (p : String),
    jsObjGet (ts.foldl (fun group t => pushTicketPure group t.project t) g) p =
      match jsObjGet g p with
      | some l => some (l ++ ts.filter (fun t => t.project == p))
      | none =>
        if ts.filter (fun t => t.project == p) = [] then none
        else some (ts.filter (fun t => t.project == p)) := by
  intro ts
  induction ts with
  | nil =>
    intro g p
    cases h : jsObjGet g p <;> simp [h]
  | cons t ts ih =>
    intro g p
    simp only [List.foldl_cons]
    rw [ih (pushTicketPure g t.project t) p]
    by_cases hp : p = t.project
    · have hbeq : (t.project == p) = true := by simp [hp]
      rw [jsObjGet_pushTicketPure g t.project p t, if_pos hp]
      simp only [List.filter_cons, hbeq, if_true]
      cases hg : jsObjGet g p with
      | some l =>
        rw [hp] at hg
        simp [hg, hp]
      | none =>
        rw [hp] at hg
        simp [hg, hp]
    · have hbeq : (t.project == p) = false := by
        simp only [beq_eq_false_iff_ne, ne_eq]
        exact fun h => hp h.symm
      rw [jsObjGet_pushTicketPure g t.project p t, if_neg hp]
      simp only [List.filter_cons, hbeq, Bool.false_eq_true, if_false]

lemma groupTicketsPure_get (ts : List SummarizedTicket) (p : String) :
    jsObjGet (groupTicketsPure ts) p =
      if ts.filter (fun t => t.project == p) = [] then none
      else some (ts.filter (fun t => t.project == p)) := by
  have h := groupTicketsPure_get_aux ts [] p
  rwa [jsObjGet_nil] at h

lemma groupTicketsPure_keys_aux :
    ∀ (ts : List SummarizedTicket) (g : List (String × List SummarizedTicket)),
    ((ts.foldl (fun group t => pushTicketPure group t.project t) g).map Prod.fst) =
      ts.foldl (fun acc t => if t.project ∈ acc then acc else acc ++ [t.project])
        (g.map Prod.fst) := by
  intro ts
  induction ts with
  | nil => intro g; rfl
  | cons t ts ih =>
    intro g
    simp only [List.foldl_cons]
    rw [ih (pushTicketPure g t.project t), keys_pushTicketPure]

lemma groupTicketsPure_keys (ts : List SummarizedTicket) :
    (groupTicketsPure ts).map Prod.fst = firstSeenProjects ts :=
  groupTicketsPure_keys_aux ts []

lemma mem_insertIndexKey (a k : String) (l : List String) :
    a ∈ insertIndexKey k l ↔ a = k ∨ a ∈ l := by
  induction l with
  | nil => simp [insertIndexKey]
  | cons k2 rest ih =>
    simp only [insertIndexKey]
    by_cases h : indexKeyValue k ≤ indexKeyValue k2
    · simp [h]
    · simp only [if_neg h, List.mem_cons, ih]
      tauto

lemma mem_sortIndexKeys (a : String) (l : List String) :
    a ∈ sortIndexKeys l ↔ a ∈ l := by
  induction l with
  | nil => simp [sortIndexKeys]
  | cons k rest ih =>
    simp [sortIndexKeys, mem_insertIndexKey, ih]

lemma jsObjKeys_subset {α : Type} (g : List (String × α)) (k : String)
    (h : k ∈ jsObjKeys g) : k ∈ g.map Prod.fst := by
  rcases List.mem_append.mp h with h1 | h2
  · exact List.mem_of_mem_filter ((mem_sortIndexKeys k _).mp h1)
  · exact List.mem_of_mem_filter h2

lemma jsObjKeys_of_no_index {α : Type} (g : List (String × α))
    (h : ∀ k ∈ g.map Prod.fst, isArrayIndexKey k = false) :
    jsObjKeys g = g.map Prod.fst := by
  unfold jsObjKeys
  have h1 : (g.map Prod.fst).filter (fun k => isArrayIndexKey k) = [] := by
    rw [List.filter_eq_nil_iff]
    intro k hk
    simp [h k hk]
  have h2 : (g.map Prod.fst).filter (fun k => !isArrayIndexKey k) = g.map Prod.fst := by
    rw [List.filter_eq_self]
    intro k hk
    simp [h k hk]
  rw [h1, h2]
  rfl

lemma mem_jsObjKeys_of_not_index {α : Type} (g : List (String × α)) (k : String)
    (hmem : k ∈ g.map Prod.fst) (hidx : isArrayIndexKey k = false) :
    k ∈ jsObjKeys g := by
  apply List.mem_append.mpr
  right
  exact List.mem_filter.mpr ⟨hmem, by simp [hidx]⟩

/-! ### The rendering pass equals the per-entry rendering -/

/-- The text the generic pass appends for one key of the grouped object. -/
def blockOf (g : List (String × List SummarizedTicket)) (projectName : String) : String :=
  "*" ++ projectName ++ "*:\n"
    ++ (match jsObjGet g projectName with
        | some l => ticketLines l
        | none => "") ++ "\n"

lemma renderFold_eq (g : List (String × List SummarizedTicket)) :
    ∀ (keys : List String) (acc : String),
    keys.foldl
      (fun acc projectName =>
        (match jsObjGet g projectName with
          | some l =>
            l.foldl (fun a t => a ++ ticketLine t) (acc ++ "*" ++ projectName ++ "*:\n")
          | none => acc ++ "*" ++ projectName ++ "*:\n") ++ "\n") acc
      = acc ++ String.join (keys.map (blockOf g)) := by
  intro keys
  induction keys with
  | nil =>
    intro acc
    show acc = acc ++ String.join []
    rw [show String.join [] = "" from rfl, String.append_empty]
  | cons k keys ih =>
    intro acc
    simp only [List.foldl_cons, List.map_cons]
    rw [ih, string_join_cons]
    have hbody :
        (match jsObjGet g k with
          | some l =>
            l.foldl (fun a t => a ++ ticketLine t) (acc ++ "*" ++ k ++ "*:\n")
          | none => acc ++ "*" ++ k ++ "*:\n") ++ "\n" = acc ++ blockOf g k := by
      cases h : jsObjGet g k with
      | some l =>
        simp only [blockOf, h, string_foldl_append_f]
        show acc ++ "*" ++ k ++ "*:\n" ++ ticketLines l ++ "\n" = _
        simp [String.append_assoc]
      | none =>
        simp only [blockOf, h]
        simp [String.append_assoc, String.append_empty, String.empty_append]
    rw [hbody, String.append_assoc]


lemma blocks_on_keys (g : List (String × List SummarizedTicket)) (keys : List String)
    (h : ∀ k ∈ keys, k ∈ g.map Prod.fst) :
    keys.map (blockOf g)
      = keys.map (fun k => renderGroup k ((jsObjGet g k).getD [])) := by
  apply List.map_congr_left
  intro k hk
  have hsome : (jsObjGet g k).isSome = true := (jsObjGet_isSome_iff g k).mpr (h k hk)
  obtain ⟨l, hl⟩ := Option.isSome_iff_exists.mp hsome
  simp only [blockOf, hl, renderGroup, Option.getD_some]

lemma formatReleaseNote_ok (ts : List SummarizedTicket)
    (g : List (String × List SummarizedTicket)) (h : groupTickets ts = .ok g) :
    formatReleaseNote ts
      = .ok (String.join ((jsObjKeys g).map
            (fun k => renderGroup k ((jsObjGet g k).getD [])))
          ++ enhancementsBlock g) := by
  simp only [formatReleaseNote, h]
  rw [renderFold_eq g (jsObjKeys g) "", String.empty_append,
    blocks_on_keys g (jsObjKeys g) (fun k hk => jsObjKeys_subset g k hk)]
  cases he : jsObjGet g "Enhancement" with
  | some l =>
    simp only [enhancementsBlock, he, string_foldl_append_f, String.empty_append]
    congr 1
    show _ ++ "*Enhancements*:\n" ++ String.join (l.map ticketLine) ++ "\n" = _
    rw [show String.join (l.map ticketLine) = ticketLines l from rfl]
    simp [String.append_assoc]
  | none =>
    simp only [enhancementsBlock, he, String.append_empty]

/-! ### Claims C7, C8, C9 -/

/-- Counterexample for C7: for a ticket whose project name is the
inherited `Object.prototype` member `"toString"`, the guard
`!group["toString"]` is false, so the grouping `reduce` calls `.push` on
the inherited function and `formatReleaseNote` throws a `TypeError`
instead of rendering the group. -/
theorem formatReleaseNote_rendering_counterexample :
    formatReleaseNote [⟨"E-3", "https://x/E-3", "Add tests", "CI", "toString"⟩]
      = .error (.pushOnNonArray "toString") := by rfl

/-- Claim C7 (amended): provided no ticket's project name is an inherited
`Object.prototype` key (otherwise the grouping `reduce` throws), the
formatter succeeds and renders each project group, in `Object.keys` order,
as the header line `*<project>*:` followed by one
`[<category>] <summary> - [<identifier>](<url>)` line per ticket followed
by a blank line, then the `Enhancements` block; in particular the single
input ticket `{project: "API", category: "DB", summary: "Update DB",
identifier: "E-1", url: "https://x/E-1"}` renders to exactly
`"*API*:\n[DB] Update DB - [E-1](https://x/E-1)\n\n"`. -/
theorem formatReleaseNote_rendering_amended (ts : List SummarizedTicket)
    (h : ∀ t ∈ ts, t.project ∉ objectPrototypeKeys) :
    formatReleaseNote ts
      = .ok (String.join ((jsObjKeys (groupTicketsPure ts)).map
            (fun k => renderGroup k ((jsObjGet (groupTicketsPure ts) k).getD [])))
          ++ enhancementsBlock (groupTicketsPure ts)) ∧
    formatReleaseNote [⟨"E-1", "https://x/E-1", "Update DB", "DB", "API"⟩]
      = .ok "*API*:\n[DB] Update DB - [E-1](https://x/E-1)\n\n" :=
  ⟨formatReleaseNote_ok ts (groupTicketsPure ts) (groupTickets_ok_of_not_proto ts h),
    by rfl⟩

/-- Witness for C7 (amended), at the claim's own concrete input. -/
theorem formatReleaseNote_rendering_amended_witness :
    (∀ t ∈ [(⟨"E-1", "https://x/E-1", "Update DB", "DB", "API"⟩ : SummarizedTicket)],
      t.project ∉ objectPrototypeKeys) ∧
    (formatReleaseNote [(⟨"E-1", "https://x/E-1", "Update DB", "DB", "API"⟩ : SummarizedTicket)]
      = .ok (String.join
            ((jsObjKeys (groupTicketsPure
                [(⟨"E-1", "https://x/E-1", "Update DB", "DB", "API"⟩ : SummarizedTicket)])).map
              (fun k => renderGroup k
                ((jsObjGet (groupTicketsPure
                  [(⟨"E-1", "https://x/E-1", "Update DB", "DB", "API"⟩ : SummarizedTicket)]) k).getD [])))
          ++ enhancementsBlock (groupTicketsPure
              [(⟨"E-1", "https://x/E-1", "Update DB", "DB", "API"⟩ : SummarizedTicket)])) ∧
      formatReleaseNote [(⟨"E-1", "https://x/E-1", "Update DB", "DB", "API"⟩ : SummarizedTicket)]
        = .ok "*API*:\n[DB] Update DB - [E-1](https://x/E-1)\n\n") :=
  ⟨by decide, formatReleaseNote_rendering_amended _ (by decide)⟩

/-- Counterexample for C8: an input satisfying the claim's precondition
(it contains a ticket whose project is exactly `"Enhancement"`) on which
the formatter throws a `TypeError` (because another ticket's project is
the prototype key `"toString"`) instead of rendering the `Enhancement`
group twice. -/
theorem formatReleaseNote_enhancement_duplication_counterexample :
    ((⟨"E-2", "u", "s", "c", "Enhancement"⟩ : SummarizedTicket).project = "Enhancement") ∧
    formatReleaseNote
        [⟨"E-2", "u", "s", "c", "Enhancement"⟩, ⟨"E-3", "u", "s", "c", "toString"⟩]
      = .error (.pushOnNonArray "toString") :=
  ⟨rfl, by rfl⟩

/-- Claim C8 (amended): whenever some input ticket's `project` is exactly
`"Enhancement"` and no ticket's project name is an inherited
`Object.prototype` key, the output renders that group in the generic pass
(under the `*Enhancement*:` header, as `renderGroup` of the group's
tickets in input order) and, after all other groups, the same tickets
again under a dedicated `*Enhancements*:` header. -/
theorem formatReleaseNote_enhancement_duplication_amended (ts : List SummarizedTicket)
    (henh : ∃ t ∈ ts, t.project = "Enhancement")
    (hproto : ∀ t ∈ ts, t.project ∉ objectPrototypeKeys) :
    ∃ A B, formatReleaseNote ts
      = .ok (A ++ renderGroup "Enhancement" (ts.filter (fun t => t.project == "Enhancement"))
        ++ B ++ "*Enhancements*:\n"
        ++ ticketLines (ts.filter (fun t => t.project == "Enhancement")) ++ "\n") := by
  have hGne : ts.filter (fun t => t.project == "Enhancement") ≠ [] := by
    obtain ⟨t, hmem, hproj⟩ := henh
    intro hnil
    have ht : t ∈ ts.filter (fun t => t.project == "Enhancement") :=
      List.mem_filter.mpr ⟨hmem, by simp [hproj]⟩
    rw [hnil] at ht
    exact absurd ht (List.not_mem_nil t)
  have hget : jsObjGet (groupTicketsPure ts) "Enhancement"
      = some (ts.filter (fun t => t.project == "Enhancement")) := by
    rw [groupTicketsPure_get, if_neg hGne]
  have hkey : "Enhancement" ∈ jsObjKeys (groupTicketsPure ts) := by
    apply mem_jsObjKeys_of_not_index
    · apply (jsObjGet_isSome_iff _ _).mp
      rw [hget]
      rfl
    · rfl
  obtain ⟨s, t2, hsplit⟩ := List.append_of_mem hkey
  refine ⟨String.join (s.map
      (fun k => renderGroup k ((jsObjGet (groupTicketsPure ts) k).getD []))),
    String.join (t2.map
      (fun k => renderGroup k ((jsObjGet (groupTicketsPure ts) k).getD []))), ?_⟩
  rw [formatReleaseNote_ok ts (groupTicketsPure ts)
    (groupTickets_ok_of_not_proto ts hproto)]
  congr 1
  rw [hsplit, List.map_append, string_join_append, List.map_cons, string_join_cons,
    hget]
  rw [show enhancementsBlock (groupTicketsPure ts)
      = "*Enhancements*:\n"
        ++ ticketLines (ts.filter (fun t => t.project == "Enhancement")) ++ "\n" from by
    simp only [enhancementsBlock, hget]]
  simp [String.append_assoc]

/-- Witness for C8 (amended): a single ticket with project
`"Enhancement"`. -/
theorem formatReleaseNote_enhancement_duplication_amended_witness :
    (∃ t ∈ [(⟨"E-2", "u", "s", "c", "Enhancement"⟩ : SummarizedTicket)],
      t.project = "Enhancement") ∧
    (∀ t ∈ [(⟨"E-2", "u", "s", "c", "Enhancement"⟩ : SummarizedTicket)],
      t.project ∉ objectPrototypeKeys) ∧
    (∃ A B, formatReleaseNote [(⟨"E-2", "u", "s", "c", "Enhancement"⟩ : SummarizedTicket)]
      = .ok (A ++ renderGroup "Enhancement"
            ([(⟨"E-2", "u", "s", "c", "Enhancement"⟩ : SummarizedTicket)].filter
              (fun t => t.project == "Enhancement"))
        ++ B ++ "*Enhancements*:\n"
        ++ ticketLines ([(⟨"E-2", "u", "s", "c", "Enhancement"⟩ : SummarizedTicket)].filter
              (fun t => t.project == "Enhancement")) ++ "\n")) :=
  ⟨⟨⟨"E-2", "u", "s", "c", "Enhancement"⟩, List.mem_cons_self _ _, rfl⟩, by decide,
    formatReleaseNote_enhancement_duplication_amended _
      ⟨⟨"E-2", "u", "s", "c", "Enhancement"⟩, List.mem_cons_self _ _, rfl⟩ (by decide)⟩

/-- Counterexample for C9: with projects first seen in the order
`"API"`, `"0"`, the real `Object.keys` enumeration puts the array-index
key `"0"` first, so the rendered headers are not in first-seen order. -/
theorem groupTickets_order_counterexample :
    firstSeenProjects [⟨"a", "a", "a", "a", "API"⟩, ⟨"b", "b", "b", "b", "0"⟩]
      = ["API", "0"] ∧
    groupTickets [⟨"a", "a", "a", "a", "API"⟩, ⟨"b", "b", "b", "b", "0"⟩]
      = .ok [("API", [⟨"a", "a", "a", "a", "API"⟩]), ("0", [⟨"b", "b", "b", "b", "0"⟩])] ∧
    jsObjKeys [("API", [(⟨"a", "a", "a", "a", "API"⟩ : SummarizedTicket)]),
        ("0", [⟨"b", "b", "b", "b", "0"⟩])]
      = ["0", "API"] ∧
    formatReleaseNote [⟨"a", "a", "a", "a", "API"⟩, ⟨"b", "b", "b", "b", "0"⟩]
      = .ok "*0*:\n[b] b - [b](b)\n\n*API*:\n[a] a - [a](a)\n\n" ∧
    (["0", "API"] : List String) ≠ ["API", "0"] :=
  ⟨rfl, by rfl, by rfl, by rfl, by decide⟩

/-- Claim C9 (amended): when no ticket's project name is an inherited
`Object.prototype` key the grouping `reduce` succeeds; the grouped object
is created in first-seen project order and each group holds exactly the
input tickets with that project, in input order; the rendered header
order is the `Object.keys` order, which coincides with first-seen order
whenever no project name is an array-index string (a canonical numeral
below `2^32 - 1`); and filtering distributes over batch concatenation, so
tickets of batch `i` stay before tickets of batch `i + 1` inside every
project group. -/
theorem groupTickets_order_amended (ts : List SummarizedTicket)
    (hproto : ∀ t ∈ ts, t.project ∉ objectPrototypeKeys) :
    groupTickets ts = .ok (groupTicketsPure ts) ∧
    (groupTicketsPure ts).map Prod.fst = firstSeenProjects ts ∧
    (∀ p, jsObjGet (groupTicketsPure ts) p
      = if ts.filter (fun t => t.project == p) = [] then none
        else some (ts.filter (fun t => t.project == p))) ∧
    ((∀ t ∈ ts, isArrayIndexKey t.project = false) →
      jsObjKeys (groupTicketsPure ts) = firstSeenProjects ts) ∧
    (∀ (batchA batchB : List SummarizedTicket) (p : String),
      (batchA ++ batchB).filter (fun t => t.project == p)
        = batchA.filter (fun t => t.project == p)
          ++ batchB.filter (fun t => t.project == p)) := by
  refine ⟨groupTickets_ok_of_not_proto ts hproto, groupTicketsPure_keys ts,
    fun p => groupTicketsPure_get ts p, ?_, fun _ _ _ => List.filter_append _ _⟩
  intro hidx
  rw [← groupTicketsPure_keys ts]
  apply jsObjKeys_of_no_index
  intro k hk
  have hsome := (jsObjGet_isSome_iff (groupTicketsPure ts) k).mpr hk
  rw [groupTicketsPure_get] at hsome
  by_cases hfil : ts.filter (fun t => t.project == k) = []
  · rw [if_pos hfil] at hsome
    simp at hsome
  · obtain ⟨t, htmem⟩ := List.exists_mem_of_ne_nil _ hfil
    obtain ⟨htin, htbeq⟩ := List.mem_filter.mp htmem
    have hproj : t.project = k := by simpa using htbeq
    have := hidx t htin
    rwa [hproj] at this

/-- Witness for C9 (amended): a single ordinary-named ticket. -/
theorem groupTickets_order_amended_witness :
    (∀ t ∈ [(⟨"E-1", "https://x/E-1", "Update DB", "DB", "API"⟩ : SummarizedTicket)],
      t.project ∉ objectPrototypeKeys) ∧
    (groupTickets [(⟨"E-1", "https://x/E-1", "Update DB", "DB", "API"⟩ : SummarizedTicket)]
        = .ok (groupTicketsPure
            [(⟨"E-1", "https://x/E-1", "Update DB", "DB", "API"⟩ : SummarizedTicket)]) ∧
      (groupTicketsPure
          [(⟨"E-1", "https://x/E-1", "Update DB", "DB", "API"⟩ : SummarizedTicket)]).map Prod.fst
        = firstSeenProjects
            [(⟨"E-1", "https://x/E-1", "Update DB", "DB", "API"⟩ : SummarizedTicket)] ∧
      (∀ p, jsObjGet (groupTicketsPure
            [(⟨"E-1", "https://x/E-1", "Update DB", "DB", "API"⟩ : SummarizedTicket)]) p
        = if [(⟨"E-1", "https://x/E-1", "Update DB", "DB", "API"⟩ : SummarizedTicket)].filter
              (fun t => t.project == p) = [] then none
          else some ([(⟨"E-1", "https://x/E-1", "Update DB", "DB", "API"⟩ : SummarizedTicket)].filter
              (fun t => t.project == p))) ∧
      ((∀ t ∈ [(⟨"E-1", "https://x/E-1", "Update DB", "DB", "API"⟩ : SummarizedTicket)],
          isArrayIndexKey t.project = false) →
        jsObjKeys (groupTicketsPure
            [(⟨"E-1", "https://x/E-1", "Update DB", "DB", "API"⟩ : SummarizedTicket)])
          = firstSeenProjects
              [(⟨"E-1", "https://x/E-1", "Update DB", "DB", "API"⟩ : SummarizedTicket)]) ∧
      (∀ (batchA batchB : List SummarizedTicket) (p : String),
        (batchA ++ batchB).filter (fun t => t.project == p)
          = batchA.filter (fun t => t.project == p)
            ++ batchB.filter (fun t => t.project == p))) :=
  ⟨by decide, groupTickets_order_amended _ (by decide)⟩

end Changelog
